import Mathlib

/-!
Verification development for the Agones game-server fleet orchestrator.

The Go sources are embedded shallowly: pure selection and status-computation
logic becomes Lean functions over explicit data; store side effects become
returned values (updated records, lists of store operations); randomness
(shuffles) becomes an explicit index-order parameter.

Where the repository snapshot contains only the tests of a component and not
its implementation, the component is modelled from the specification; those
definitions are marked with a doc comment starting with "Modelled from the
spec:".
-/

namespace Agones

/-- The GameServer lifecycle states, from the spec state machine and the
states referenced by the sources
(`GameServerStatePortAllocation`, ..., `GameServerStateUnhealthy`). -/
inductive GameServerState where
  | portAllocation
  | creating
  | starting
  | scheduled
  | requestReady
  | ready
  | allocated
  | reserved
  | shutdown
  | error
  | unhealthy
deriving DecidableEq, Repr

/-- A GameServer record, restricted to the fields the verified code paths
read: object metadata (name, namespace, labels, deletion timestamp,
creation timestamp) and status (state, node name). -/
structure GameServer where
  name : String
  ns : String
  labels : List (String × String)
  nodeName : String
  state : GameServerState
  creationTimestamp : Nat
  deletionTimestamp : Option Nat
deriving DecidableEq, Repr

/-- Look up a label key in a label set (a list of key/value pairs). -/
def labelGet (s : List (String × String)) (k : String) : Option String :=
  match s with
  | [] => none
  | (k2, v) :: rest => if k2 == k then some v else labelGet rest k

/-- A label selector restricted to matchLabels requirements
(the form used by every selector in the sources and tests). -/
structure LabelSelector where
  matchLabels : List (String × String)
deriving DecidableEq, Repr

/-- Selector matching: every required key must be present with the required
value, the semantics of a matchLabels selector. -/
def LabelSelector.matchesSet (sel : LabelSelector) (s : List (String × String)) : Bool :=
  sel.matchLabels.all fun kv => labelGet s kv.1 == some kv.2

/-- Scheduling strategy: the `apis.Packed` and `apis.Distributed` values plus
a catch-all for any other string, which `findGameServerForAllocation`
rejects as unsupported. -/
inductive SchedulingStrategy where
  | packed
  | distributed
  | unsupported (s : String)
deriving DecidableEq, Repr

/-- A GameServerAllocation: namespace, required selector, ordered preferred
selectors, and scheduling strategy (the fields read by
`findGameServerForAllocation`). -/
structure GameServerAllocation where
  ns : String
  required : LabelSelector
  preferred : List LabelSelector
  scheduling : SchedulingStrategy
deriving DecidableEq, Repr

/-- The error outcomes of `findGameServerForAllocation`:
`ErrNoGameServerReady`, and the unsupported-scheduling error. -/
inductive FindError where
  | noGameServerReady
  | unsupportedScheduling (s : String)
deriving DecidableEq, Repr

/-- The `result` pair tracked by `findGameServerForAllocation`: a game server
together with the index it was found at in the list. -/
structure FindResult where
  gs : GameServer
  index : Nat
deriving DecidableEq, Repr

/-- The tracking state of the walk in `findGameServerForAllocation`: the
first required match found so far, and for each preferred selector the first
match found so far. -/
structure FindState where
  required : Option FindResult
  preferred : List (Option FindResult)
deriving DecidableEq, Repr

/-- One iteration of the loop body in `findGameServerForAllocation`
(find.go lines 84-103): skip game servers from another namespace; record the
game server for each preferred selector whose slot is still nil and matches;
record it for the required selector if that slot is still nil and matches. -/
def visitGameServer (gsa : GameServerAllocation) (st : FindState) (i : Nat)
    (gs : GameServer) : FindState :=
  if gs.ns != gsa.ns then st
  else
    { required :=
        if st.required.isNone && gsa.required.matchesSet gs.labels then
          some { gs := gs, index := i }
        else st.required
      preferred :=
        List.zipWith
          (fun cur sel =>
            if cur.isNone && sel.matchesSet gs.labels then
              some { gs := gs, index := i }
            else cur)
          st.preferred gsa.preferred }

/-- The initial tracking state: no required match, one empty slot per
preferred selector. -/
def initFindState (gsa : GameServerAllocation) : FindState :=
  { required := none, preferred := gsa.preferred.map fun _ => none }

/-- The walk plus the return logic of `findGameServerForAllocation`
(find.go lines 84-115), over an explicit list of (index, game server) pairs
in visiting order: fold the loop body, then return the first non-nil
preferred match, else the required match, else `ErrNoGameServerReady`. -/
def findCore (gsa : GameServerAllocation) (pairs : List (Nat × GameServer)) :
    Except FindError FindResult :=
  let st := pairs.foldl (fun st p => visitGameServer gsa st p.1 p.2) (initFindState gsa)
  match st.preferred.findSome? id with
  | some r => Except.ok r
  | none =>
    match st.required with
    | some r => Except.ok r
    | none => Except.error FindError.noGameServerReady

/-- The visiting order used for Distributed scheduling: the shuffled index
list, paired with the game server at each index (find.go lines 63-79). -/
def distributedPairs (list : List GameServer) (indices : List Nat) :
    List (Nat × GameServer) :=
  indices.filterMap fun i => (list.get? i).map fun gs => (i, gs)

/-- `findGameServerForAllocation` (find.go lines 34-116). Packed scheduling
walks the list from start to finish; Distributed walks it in the order given
by `indices` (the shuffled index permutation produced by rand.Shuffle); any
other scheduling value is rejected. -/
def findGameServerForAllocation (gsa : GameServerAllocation)
    (list : List GameServer) (indices : List Nat) : Except FindError FindResult :=
  match gsa.scheduling with
  | SchedulingStrategy.packed => findCore gsa list.enum
  | SchedulingStrategy.distributed => findCore gsa (distributedPairs list indices)
  | SchedulingStrategy.unsupported s => Except.error (FindError.unsupportedScheduling s)

/-- Whether a game server counts as a match for a selector in
`findGameServerForAllocation`: it must be in the allocation's namespace and
its labels must match the selector. -/
def allocMatch (gsa : GameServerAllocation) (sel : LabelSelector)
    (gs : GameServer) : Bool :=
  gs.ns == gsa.ns && sel.matchesSet gs.labels

/-- Declarative description: the first (index, game server) pair in walk
order matching a selector. -/
def firstAllocMatch (gsa : GameServerAllocation) (sel : LabelSelector)
    (pairs : List (Nat × GameServer)) : Option FindResult :=
  (pairs.find? fun p => allocMatch gsa sel p.2).map fun p => { gs := p.2, index := p.1 }

/-- Declarative description of the overall selection: the first non-nil
first-match among the preferred selectors in preferred-list order, otherwise
the first required match, otherwise `ErrNoGameServerReady`. -/
def allocationChoice (gsa : GameServerAllocation)
    (pairs : List (Nat × GameServer)) : Except FindError FindResult :=
  match (gsa.preferred.map fun sel => firstAllocMatch gsa sel pairs).findSome? id with
  | some r => Except.ok r
  | none =>
    match firstAllocMatch gsa gsa.required pairs with
    | some r => Except.ok r
    | none => Except.error FindError.noGameServerReady

/-- First-of-two for options: keep the first value when present,
otherwise fall through to the second. -/
def optOr {α : Type} (a b : Option α) : Option α :=
  match a with
  | some x => some x
  | none => b

@[simp] theorem optOr_some {α : Type} (x : α) (b : Option α) : optOr (some x) b = some x := rfl

@[simp] theorem optOr_none {α : Type} (b : Option α) : optOr none b = b := rfl

@[simp] theorem optOr_none_right {α : Type} (a : Option α) : optOr a none = a := by
  cases a <;> rfl

theorem zipWith_fst_of_length_le {α β : Type} :
    ∀ (a : List α) (b : List β), a.length ≤ b.length →
      List.zipWith (fun x _ => x) a b = a := by
  intro a
  induction a with
  | nil => intro b _; simp
  | cons x xs ih =>
    intro b h
    cases b with
    | nil => simp at h
    | cons y ys =>
      rw [List.zipWith_cons_cons, ih ys (by simpa using h)]

theorem zipWith_zipWith_same_right {α β γ : Type} (f : α → β → α) (g : α → β → γ) :
    ∀ (a : List α) (b : List β),
      List.zipWith g (List.zipWith f a b) b =
        List.zipWith (fun x y => g (f x y) y) a b := by
  intro a
  induction a with
  | nil => intro b; simp
  | cons x xs ih =>
    intro b
    cases b with
    | nil => simp
    | cons y ys => simp [List.zipWith_cons_cons, ih ys]

theorem zipWith_optOr_of_map_none {α β : Type} (f : β → Option α) :
    ∀ (b : List β),
      List.zipWith (fun cur sel => optOr cur (f sel))
        (b.map fun _ => (none : Option α)) b = b.map f := by
  intro b
  induction b with
  | nil => rfl
  | cons x xs ih =>
    simp only [List.map_cons, List.zipWith_cons_cons, optOr_none]
    rw [ih]

theorem firstAllocMatch_nil (gsa : GameServerAllocation) (sel : LabelSelector) :
    firstAllocMatch gsa sel [] = none := rfl

theorem firstAllocMatch_cons (gsa : GameServerAllocation) (sel : LabelSelector)
    (p : Nat × GameServer) (pairs : List (Nat × GameServer)) :
    firstAllocMatch gsa sel (p :: pairs) =
      if allocMatch gsa sel p.2 then some { gs := p.2, index := p.1 }
      else firstAllocMatch gsa sel pairs := by
  unfold firstAllocMatch
  rw [List.find?_cons]
  cases h : allocMatch gsa sel p.2 <;> simp [h]

/-- When the head of the walk is in another namespace, no selector counts
it as a match. -/
theorem allocMatch_of_ns_ne (gsa : GameServerAllocation) (sel : LabelSelector)
    (gs : GameServer) (h : (gs.ns == gsa.ns) = false) :
    allocMatch gsa sel gs = false := by
  simp [allocMatch, h]

/-- The walk of `findGameServerForAllocation` tracks, in its `required`
slot, exactly the first game server (in walk order) matching the required
selector, on top of whatever the slot already held. -/
theorem foldl_visit_required (gsa : GameServerAllocation) :
    ∀ (pairs : List (Nat × GameServer)) (st : FindState),
      (pairs.foldl (fun st p => visitGameServer gsa st p.1 p.2) st).required =
        optOr st.required (firstAllocMatch gsa gsa.required pairs) := by
  intro pairs
  induction pairs with
  | nil => intro st; simp [firstAllocMatch]
  | cons p rest ih =>
    intro st
    rw [List.foldl_cons, ih, firstAllocMatch_cons]
    by_cases hns : (p.2.ns == gsa.ns) = true
    · cases hreq : st.required with
      | some r => simp [visitGameServer, bne, hns, hreq]
      | none =>
        cases hm : gsa.required.matchesSet p.2.labels <;>
          simp [visitGameServer, bne, hns, hreq, allocMatch, hm]
    · have hns' : (p.2.ns == gsa.ns) = false := by
        cases h2 : (p.2.ns == gsa.ns) with
        | true => exact absurd h2 hns
        | false => rfl
      simp [visitGameServer, bne, hns', allocMatch_of_ns_ne gsa gsa.required p.2 hns']

/-- The walk of `findGameServerForAllocation` tracks, in each `preferred`
slot, exactly the first game server (in walk order) matching that preferred
selector, on top of whatever the slot already held. -/
theorem foldl_visit_preferred (gsa : GameServerAllocation) :
    ∀ (pairs : List (Nat × GameServer)) (st : FindState),
      st.preferred.length = gsa.preferred.length →
      (pairs.foldl (fun st p => visitGameServer gsa st p.1 p.2) st).preferred =
        List.zipWith (fun cur sel => optOr cur (firstAllocMatch gsa sel pairs))
          st.preferred gsa.preferred := by
  intro pairs
  induction pairs with
  | nil =>
    intro st h
    have h2 : (fun (cur : Option FindResult) (sel : LabelSelector) =>
        optOr cur (firstAllocMatch gsa sel [])) = fun cur _ => cur := by
      funext cur sel
      simp [firstAllocMatch]
    rw [List.foldl_nil, h2, zipWith_fst_of_length_le _ _ (le_of_eq h)]
  | cons p rest ih =>
    intro st h
    rw [List.foldl_cons]
    by_cases hns : (p.2.ns == gsa.ns) = true
    · have hv : (visitGameServer gsa st p.1 p.2).preferred =
          List.zipWith
            (fun cur sel =>
              if cur.isNone && sel.matchesSet p.2.labels then
                some { gs := p.2, index := p.1 }
              else cur)
            st.preferred gsa.preferred := by
        simp [visitGameServer, bne, hns]
      have hlen : (visitGameServer gsa st p.1 p.2).preferred.length =
          gsa.preferred.length := by
        rw [hv, List.length_zipWith, h, Nat.min_self]
      rw [ih _ hlen, hv, zipWith_zipWith_same_right]
      have hfun : (fun (cur : Option FindResult) (sel : LabelSelector) =>
          optOr
            (if cur.isNone && sel.matchesSet p.2.labels then
              some { gs := p.2, index := p.1 }
            else cur)
            (firstAllocMatch gsa sel rest)) =
          fun cur sel => optOr cur (firstAllocMatch gsa sel (p :: rest)) := by
        funext cur sel
        rw [firstAllocMatch_cons]
        cases cur with
        | some r => simp
        | none =>
          cases hm : sel.matchesSet p.2.labels <;> simp [allocMatch, hns, hm]
      rw [hfun]
    · have hns' : (p.2.ns == gsa.ns) = false := by
        cases h2 : (p.2.ns == gsa.ns) with
        | true => exact absurd h2 hns
        | false => rfl
      have hv : visitGameServer gsa st p.1 p.2 = st := by
        simp [visitGameServer, bne, hns']
      rw [hv, ih _ h]
      have hfun : (fun (cur : Option FindResult) (sel : LabelSelector) =>
          optOr cur (firstAllocMatch gsa sel rest)) =
          fun cur sel => optOr cur (firstAllocMatch gsa sel (p :: rest)) := by
        funext cur sel
        rw [firstAllocMatch_cons, allocMatch_of_ns_ne gsa sel p.2 hns']
        simp
      rw [hfun]

/-- The core walk equals its declarative description. -/
theorem findCore_eq_allocationChoice (gsa : GameServerAllocation)
    (pairs : List (Nat × GameServer)) :
    findCore gsa pairs = allocationChoice gsa pairs := by
  simp only [findCore, allocationChoice]
  rw [foldl_visit_required gsa pairs (initFindState gsa),
    foldl_visit_preferred gsa pairs (initFindState gsa) (by simp [initFindState])]
  dsimp only [initFindState]
  rw [optOr_none, zipWith_optOr_of_map_none]

/-- Claim C1: for every GameServerAllocation request and every list of Ready
game servers, `findGameServerForAllocation` walks the list in order (Packed:
from start to finish; Distributed: in the shuffled index order), tracks the
first server matching the required selector and the first server matching
each preferred selector, and returns the first non-nil preferred match in
preferred-list order, otherwise the required match, otherwise
`ErrNoGameServerReady`. -/
theorem c1_findGameServerForAllocation_first_match (gsa : GameServerAllocation)
    (list : List GameServer) (indices : List Nat) :
    findGameServerForAllocation gsa list indices =
      match gsa.scheduling with
      | SchedulingStrategy.packed => allocationChoice gsa list.enum
      | SchedulingStrategy.distributed =>
          allocationChoice gsa (distributedPairs list indices)
      | SchedulingStrategy.unsupported s =>
          Except.error (FindError.unsupportedScheduling s) := by
  cases hs : gsa.scheduling <;>
    simp [findGameServerForAllocation, hs, findCore_eq_allocationChoice]

/-- A concrete Ready game server labelled for the blue fleet only. -/
def blueGameServer : GameServer :=
  { name := "gs-blue"
    ns := "default"
    labels := [("fleet", "blue")]
    nodeName := "node1"
    state := GameServerState.ready
    creationTimestamp := 0
    deletionTimestamp := none }

/-- A concrete allocation whose required selector asks for the red fleet but
whose single preferred selector asks for the blue fleet. -/
def bluePreferredAllocation : GameServerAllocation :=
  { ns := "default"
    required := { matchLabels := [("fleet", "red")] }
    preferred := [{ matchLabels := [("fleet", "blue")] }]
    scheduling := SchedulingStrategy.packed }

/-- Claim C9: in `findGameServerForAllocation`, a game server matched by some
preferred selector is returned even when its labels do not match the required
selector: on this concrete input the returned server satisfies the preferred
selector but not the required one. -/
theorem c9_preferred_match_independent_of_required :
    findGameServerForAllocation bluePreferredAllocation [blueGameServer] [] =
        Except.ok { gs := blueGameServer, index := 0 } ∧
      bluePreferredAllocation.required.matchesSet blueGameServer.labels = false ∧
      (bluePreferredAllocation.preferred.map
        fun sel => sel.matchesSet blueGameServer.labels) = [true] := by
  refine ⟨?_, ?_, ?_⟩ <;> rfl

/-! ## Fleet controller (src/unnamed/part_003, package fleets) -/

/-- Deployment strategy type: the two appsv1 strategy types switched on by
`applyDeploymentStrategy`, plus a catch-all for any other string. -/
inductive DeploymentStrategyType where
  | recreate
  | rollingUpdate
  | other (s : String)
deriving DecidableEq, Repr

/-- GameServerSet status counters. The fleets controller reads `Replicas`,
`ReadyReplicas` and `AllocatedReplicas`; `reservedReplicas` is the further
counter named by the spec data model and read by the e2e tests
(`TestReservedGameServerInFleet`). -/
structure GameServerSetStatus where
  replicas : Int
  readyReplicas : Int
  allocatedReplicas : Int
  reservedReplicas : Int
deriving DecidableEq, Repr

/-- A GameServerSet, restricted to the fields the fleets controller reads:
identity, spec replicas and status counters. -/
structure GameServerSet where
  name : String
  ns : String
  uid : String
  specReplicas : Int
  status : GameServerSetStatus
deriving DecidableEq, Repr

/-- Fleet status counters, as in the spec data model: replicas,
readyReplicas, allocatedReplicas, reservedReplicas. -/
structure FleetStatus where
  replicas : Int
  readyReplicas : Int
  allocatedReplicas : Int
  reservedReplicas : Int
deriving DecidableEq, Repr

/-- A Fleet, restricted to the fields the fleets controller reads. -/
structure Fleet where
  name : String
  ns : String
  strategyType : DeploymentStrategyType
  specReplicas : Int
  status : FleetStatus
deriving DecidableEq, Repr

/-- The outcome of `applyDeploymentStrategy`: either the store updates it
performed on the non-active sets, a Go panic, or the unexpected-strategy
error. -/
inductive StrategyResult where
  | applied (sets : List GameServerSet)
  | panicked (msg : String)
  | errored (msg : String)
deriving DecidableEq, Repr

/-- `recreateDeployment` (part_003 lines 313-326): every non-active
GameServerSet with non-zero spec replicas is updated to zero spec replicas. -/
def recreateDeployment (list : List GameServerSet) : List GameServerSet :=
  list.map fun gsSet =>
    if gsSet.specReplicas != 0 then { gsSet with specReplicas := 0 } else gsSet

/-- `applyDeploymentStrategy` (part_003 lines 280-291): Recreate runs
`recreateDeployment`; RollingUpdate hits the explicit
panic("this is not implemented!"); any other strategy type is an error. -/
def applyDeploymentStrategy (fleet : Fleet) (list : List GameServerSet) :
    StrategyResult :=
  match fleet.strategyType with
  | DeploymentStrategyType.recreate => StrategyResult.applied (recreateDeployment list)
  | DeploymentStrategyType.rollingUpdate => StrategyResult.panicked "this is not implemented!"
  | DeploymentStrategyType.other s => StrategyResult.errored s

/-- `updateFleetStatus` (part_003 lines 330-349): zero the `Replicas`,
`ReadyReplicas` and `AllocatedReplicas` counters of a deep copy of the
fleet, add the corresponding GameServerSet status counters over all owned
sets, and write the result. The `reservedReplicas` counter is not touched. -/
def updateFleetStatus (fleet : Fleet) (list : List GameServerSet) : Fleet :=
  let fCopy := { fleet with status :=
    { fleet.status with replicas := 0, readyReplicas := 0, allocatedReplicas := 0 } }
  list.foldl
    (fun f gsSet =>
      { f with status :=
        { f.status with
            replicas := f.status.replicas + gsSet.status.replicas
            readyReplicas := f.status.readyReplicas + gsSet.status.readyReplicas
            allocatedReplicas := f.status.allocatedReplicas + gsSet.status.allocatedReplicas } })
    fCopy

/-- Claim C3: for every Fleet whose strategy type is RollingUpdate, applying
the deployment strategy does not perform the rolling update described by the
spec: it panics with "this is not implemented!"; only Recreate is
implemented. -/
theorem c3_applyDeploymentStrategy_rollingUpdate_panics (fleet : Fleet)
    (list : List GameServerSet) (h : fleet.strategyType = DeploymentStrategyType.rollingUpdate) :
    applyDeploymentStrategy fleet list = StrategyResult.panicked "this is not implemented!" := by
  simp [applyDeploymentStrategy, h]

/-- A concrete fleet whose strategy type is RollingUpdate. -/
def rollingUpdateFleet : Fleet :=
  { name := "simple-fleet"
    ns := "default"
    strategyType := DeploymentStrategyType.rollingUpdate
    specReplicas := 8
    status := { replicas := 8, readyReplicas := 8, allocatedReplicas := 0, reservedReplicas := 0 } }

/-- Witness for C3 at a concrete RollingUpdate fleet. -/
theorem c3_applyDeploymentStrategy_rollingUpdate_panics_witness :
    applyDeploymentStrategy rollingUpdateFleet [] =
      StrategyResult.panicked "this is not implemented!" :=
  c3_applyDeploymentStrategy_rollingUpdate_panics rollingUpdateFleet [] rfl

/-- Sum of a GameServerSet status counter over a list of sets. -/
def sumBy (f : GameServerSet → Int) (list : List GameServerSet) : Int :=
  (list.map f).sum

/-- After `updateFleetStatus`, the replicas, readyReplicas and
allocatedReplicas counters equal the sums of the corresponding GameServerSet
status counters; the reservedReplicas counter keeps its previous value. -/
theorem updateFleetStatus_counters (fleet : Fleet) (list : List GameServerSet) :
    (updateFleetStatus fleet list).status.replicas = sumBy (fun g => g.status.replicas) list ∧
    (updateFleetStatus fleet list).status.readyReplicas =
      sumBy (fun g => g.status.readyReplicas) list ∧
    (updateFleetStatus fleet list).status.allocatedReplicas =
      sumBy (fun g => g.status.allocatedReplicas) list ∧
    (updateFleetStatus fleet list).status.reservedReplicas =
      fleet.status.reservedReplicas := by
  have key : ∀ (l : List GameServerSet) (f : Fleet),
      (l.foldl
        (fun f gsSet =>
          { f with status :=
            { f.status with
                replicas := f.status.replicas + gsSet.status.replicas
                readyReplicas := f.status.readyReplicas + gsSet.status.readyReplicas
                allocatedReplicas := f.status.allocatedReplicas + gsSet.status.allocatedReplicas } })
        f) =
      { f with status :=
        { f.status with
            replicas := f.status.replicas + sumBy (fun g => g.status.replicas) l
            readyReplicas := f.status.readyReplicas + sumBy (fun g => g.status.readyReplicas) l
            allocatedReplicas :=
              f.status.allocatedReplicas + sumBy (fun g => g.status.allocatedReplicas) l } } := by
    intro l
    induction l with
    | nil => intro f; simp [sumBy]
    | cons g rest ih =>
      intro f
      rw [List.foldl_cons, ih]
      simp [sumBy, List.sum_cons]
      ring_nf
      exact ⟨trivial, trivial, trivial⟩
  rw [updateFleetStatus, key]
  simp

/-- The reserved-gameserver e2e scenario: one owned GameServerSet holding a
single Reserved game server after the fleet was scaled to zero. -/
def reservedOnlySet : GameServerSet :=
  { name := "simple-fleet-gsset"
    ns := "default"
    uid := "4321"
    specReplicas := 0
    status := { replicas := 1, readyReplicas := 0, allocatedReplicas := 0, reservedReplicas := 1 } }

/-- The owning fleet of `reservedOnlySet`, with a stale zero reserved count. -/
def reservedOnlyFleet : Fleet :=
  { name := "simple-fleet"
    ns := "default"
    strategyType := DeploymentStrategyType.recreate
    specReplicas := 0
    status := { replicas := 0, readyReplicas := 0, allocatedReplicas := 0, reservedReplicas := 0 } }

/-- Claim C4, failing input: `updateFleetStatus` recomputes replicas,
readyReplicas and allocatedReplicas as sums over the owned sets, but leaves
reservedReplicas at its previous value (here 0) instead of the sum over the
owned sets (here 1), contradicting the spec and the e2e test
`TestReservedGameServerInFleet`. -/
theorem c4_updateFleetStatus_reserved_not_summed :
    (updateFleetStatus reservedOnlyFleet [reservedOnlySet]).status.replicas = 1 ∧
    (updateFleetStatus reservedOnlyFleet [reservedOnlySet]).status.readyReplicas = 0 ∧
    (updateFleetStatus reservedOnlyFleet [reservedOnlySet]).status.allocatedReplicas = 0 ∧
    (updateFleetStatus reservedOnlyFleet [reservedOnlySet]).status.reservedReplicas = 0 ∧
    sumBy (fun g => g.status.reservedReplicas) [reservedOnlySet] = 1 ∧
    (updateFleetStatus reservedOnlyFleet [reservedOnlySet]).status.reservedReplicas ≠
      sumBy (fun g => g.status.reservedReplicas) [reservedOnlySet] := by
  refine ⟨rfl, rfl, rfl, rfl, rfl, ?_⟩
  decide

/-! ## GameServerSet scale-down (controller implementation not in the
snapshot; modelled from the spec, section 4.3) -/

/-- Insert an element into a list that is ordered by the Boolean
comparison. -/
def insertOrdered {α : Type} (le : α → α → Bool) (a : α) : List α → List α
  | [] => [a]
  | b :: rest => if le a b then a :: b :: rest else b :: insertOrdered le a rest

/-- Insertion sort by a Boolean comparison. -/
def sortByLess {α : Type} (le : α → α → Bool) (l : List α) : List α :=
  l.foldr (insertOrdered le) []

theorem mem_insertOrdered {α : Type} (le : α → α → Bool) (a x : α) :
    ∀ (l : List α), x ∈ insertOrdered le a l ↔ x = a ∨ x ∈ l := by
  intro l
  induction l with
  | nil => simp [insertOrdered]
  | cons b rest ih =>
    rw [insertOrdered]
    by_cases h : le a b = true
    · simp [h]
    · simp only [if_neg h, List.mem_cons, ih]
      tauto

theorem mem_sortByLess {α : Type} (le : α → α → Bool) (x : α) (l : List α) :
    x ∈ sortByLess le l ↔ x ∈ l := by
  induction l with
  | nil => simp [sortByLess]
  | cons b rest ih =>
    rw [sortByLess, List.foldr_cons, mem_insertOrdered]
    rw [sortByLess] at ih
    rw [ih]
    simp

/-- The pre-Ready "starting" states of the lifecycle. -/
def isBeforeReady : GameServerState → Bool
  | GameServerState.portAllocation => true
  | GameServerState.creating => true
  | GameServerState.starting => true
  | GameServerState.scheduled => true
  | GameServerState.requestReady => true
  | _ => false

/-- Newest-first ordering on game servers by creation timestamp. -/
def newestFirst (a b : GameServer) : Bool :=
  decide (b.creationTimestamp < a.creationTimestamp)

/-- Modelled from the spec: the GameServerSet controller (implementation not
under src/) selects scale-down deletion candidates in least-valuable-first
priority order — unhealthy, then error, then starting, then ready newest
before ready oldest — and never an Allocated or Reserved game server. -/
def scaleDownCandidates (list : List GameServer) : List GameServer :=
  (list.filter fun gs => gs.state == GameServerState.unhealthy) ++
    (list.filter fun gs => gs.state == GameServerState.error) ++
      (list.filter fun gs => isBeforeReady gs.state) ++
        sortByLess newestFirst (list.filter fun gs => gs.state == GameServerState.ready)

/-- Modelled from the spec: on a scale-down by `diff`, the first `diff`
candidates in priority order are deleted. -/
def selectGameServersToDelete (diff : Nat) (list : List GameServer) :
    List GameServer :=
  (scaleDownCandidates list).take diff

/-- The game servers surviving a scale-down: the owned list minus the
selected deletions. -/
def survivorsAfterScaleDown (diff : Nat) (list : List GameServer) :
    List GameServer :=
  list.filter fun gs => decide (gs ∉ selectGameServersToDelete diff list)

/-- Every scale-down candidate is unhealthy, errored, starting or ready. -/
theorem scaleDownCandidates_state (list : List GameServer) (gs : GameServer)
    (h : gs ∈ scaleDownCandidates list) :
    gs.state = GameServerState.unhealthy ∨ gs.state = GameServerState.error ∨
      isBeforeReady gs.state = true ∨ gs.state = GameServerState.ready := by
  rw [scaleDownCandidates] at h
  simp only [List.mem_append, List.mem_filter, mem_sortByLess, beq_iff_eq] at h
  tauto

/-- Claim C2: for every GameServerSet scale-down, no Allocated or Reserved
game server is ever selected for deletion: every Allocated and every
Reserved member of the owned list survives. -/
theorem c2_scale_down_spares_allocated_and_reserved (diff : Nat)
    (list : List GameServer) (gs : GameServer) (hmem : gs ∈ list)
    (hstate : gs.state = GameServerState.allocated ∨ gs.state = GameServerState.reserved) :
    gs ∈ survivorsAfterScaleDown diff list := by
  rw [survivorsAfterScaleDown, List.mem_filter]
  refine ⟨hmem, ?_⟩
  rw [decide_eq_true_eq]
  intro hdel
  have hc : gs ∈ scaleDownCandidates list :=
    List.take_subset _ _ hdel
  rcases scaleDownCandidates_state list gs hc with h2 | h2 | h2 | h2 <;>
    rcases hstate with h | h <;> rw [h] at h2 <;> exact absurd h2 (by decide)

/-- A concrete Allocated game server. -/
def allocatedGs : GameServer :=
  { name := "gs-a"
    ns := "default"
    labels := []
    nodeName := "node1"
    state := GameServerState.allocated
    creationTimestamp := 1
    deletionTimestamp := none }

/-- A concrete Ready game server. -/
def readyGs : GameServer :=
  { name := "gs-r"
    ns := "default"
    labels := []
    nodeName := "node1"
    state := GameServerState.ready
    creationTimestamp := 2
    deletionTimestamp := none }

/-- Witness for C2: scaling the two-server list down by one spares the
Allocated member. -/
theorem c2_scale_down_spares_allocated_and_reserved_witness :
    allocatedGs ∈ survivorsAfterScaleDown 1 [allocatedGs, readyGs] :=
  c2_scale_down_spares_allocated_and_reserved 1 [allocatedGs, readyGs]
    allocatedGs (List.mem_cons_self _ _) (Or.inl rfl)

/-! ## GameServer controller per-state handlers (implementation not in the
snapshot; modelled from the spec, section 4.2, and validated against
testNoChange / testWithNonZeroDeletionTimestamp in part_002) -/

/-- A store side effect performed by a per-state handler. -/
inductive StoreOp where
  | updateGameServer (gs : GameServer)
  | createPod (owner : String)
  | deleteGameServer (name : String)
deriving DecidableEq, Repr

/-- Modelled from the spec: every per-state handler first checks that the
observed status state is a state it handles and that the record is not being
deleted; otherwise it performs no store operation and returns the game
server unchanged. -/
def stateHandler (handles : GameServerState → Bool)
    (body : GameServer → GameServer × List StoreOp) (gs : GameServer) :
    GameServer × List StoreOp :=
  if handles gs.state && gs.deletionTimestamp == none then body gs else (gs, [])

/-- Modelled from the spec: the PortAllocation handler assigns ports and
advances the game server to Creating. -/
def syncGameServerPortAllocationState : GameServer → GameServer × List StoreOp :=
  stateHandler (fun s => s == GameServerState.portAllocation) fun gs =>
    ({ gs with state := GameServerState.creating },
      [StoreOp.updateGameServer { gs with state := GameServerState.creating }])

/-- Modelled from the spec: the Creating handler creates the backing pod and
advances the game server to Starting. -/
def syncGameServerCreatingState : GameServer → GameServer × List StoreOp :=
  stateHandler (fun s => s == GameServerState.creating) fun gs =>
    ({ gs with state := GameServerState.starting },
      [StoreOp.createPod gs.name,
        StoreOp.updateGameServer { gs with state := GameServerState.starting }])

/-- Modelled from the spec: the Starting handler resolves the node address
and advances the game server to Scheduled. -/
def syncGameServerStartingState : GameServer → GameServer × List StoreOp :=
  stateHandler (fun s => s == GameServerState.starting) fun gs =>
    ({ gs with state := GameServerState.scheduled },
      [StoreOp.updateGameServer { gs with state := GameServerState.scheduled }])

/-- Modelled from the spec: the RequestReady handler ensures the address is
populated and advances the game server to Ready. -/
def syncGameServerRequestReadyState : GameServer → GameServer × List StoreOp :=
  stateHandler (fun s => s == GameServerState.requestReady) fun gs =>
    ({ gs with state := GameServerState.ready },
      [StoreOp.updateGameServer { gs with state := GameServerState.ready }])

/-- Modelled from the spec: the Shutdown handler deletes the game server
record. -/
def syncGameServerShutdownState : GameServer → GameServer × List StoreOp :=
  stateHandler (fun s => s == GameServerState.shutdown) fun gs =>
    (gs, [StoreOp.deleteGameServer gs.name])

theorem stateHandler_frame (handles : GameServerState → Bool)
    (body : GameServer → GameServer × List StoreOp) (gs : GameServer)
    (h : handles gs.state = false ∨ gs.deletionTimestamp ≠ none) :
    stateHandler handles body gs = (gs, []) := by
  rw [stateHandler]
  rcases h with h | h
  · simp [h]
  · have h2 : (gs.deletionTimestamp == none) = false := by
      cases hd : gs.deletionTimestamp with
      | none => exact absurd hd h
      | some t => rfl
    simp [h2]

/-- Claim C10: every per-state GameServer sync handler (port allocation,
creating, starting, request-ready, shutdown), when invoked on a game server
whose observed status state is not the state that handler handles, or whose
deletion timestamp is non-zero, performs no store operation and returns the
game server unchanged. -/
theorem c10_state_handlers_frame (gs : GameServer) :
    (¬ (gs.state = GameServerState.portAllocation ∧ gs.deletionTimestamp = none) →
      syncGameServerPortAllocationState gs = (gs, [])) ∧
    (¬ (gs.state = GameServerState.creating ∧ gs.deletionTimestamp = none) →
      syncGameServerCreatingState gs = (gs, [])) ∧
    (¬ (gs.state = GameServerState.starting ∧ gs.deletionTimestamp = none) →
      syncGameServerStartingState gs = (gs, [])) ∧
    (¬ (gs.state = GameServerState.requestReady ∧ gs.deletionTimestamp = none) →
      syncGameServerRequestReadyState gs = (gs, [])) ∧
    (¬ (gs.state = GameServerState.shutdown ∧ gs.deletionTimestamp = none) →
      syncGameServerShutdownState gs = (gs, [])) := by
  refine ⟨?_, ?_, ?_, ?_, ?_⟩ <;>
    · intro h
      apply stateHandler_frame
      rcases not_and_or.mp h with h1 | h1
      · left
        simpa using h1
      · right
        exact h1

/-- A game server that is in Shutdown state and being deleted. -/
def deletedShutdownGs : GameServer :=
  { name := "gs-d"
    ns := "default"
    labels := []
    nodeName := "node1"
    state := GameServerState.shutdown
    creationTimestamp := 3
    deletionTimestamp := some 5 }

/-- Witness for C10: on a game server with a non-zero deletion timestamp
(and a state none of the first four handlers handle), all five handlers
return it unchanged with no store operation. -/
theorem c10_state_handlers_frame_witness :
    syncGameServerPortAllocationState deletedShutdownGs = (deletedShutdownGs, []) ∧
    syncGameServerCreatingState deletedShutdownGs = (deletedShutdownGs, []) ∧
    syncGameServerStartingState deletedShutdownGs = (deletedShutdownGs, []) ∧
    syncGameServerRequestReadyState deletedShutdownGs = (deletedShutdownGs, []) ∧
    syncGameServerShutdownState deletedShutdownGs = (deletedShutdownGs, []) :=
  ⟨(c10_state_handlers_frame deletedShutdownGs).1 (by decide),
    (c10_state_handlers_frame deletedShutdownGs).2.1 (by decide),
    (c10_state_handlers_frame deletedShutdownGs).2.2.1 (by decide),
    (c10_state_handlers_frame deletedShutdownGs).2.2.2.1 (by decide),
    (c10_state_handlers_frame deletedShutdownGs).2.2.2.2 (by decide)⟩

/-! ## Allocation engine: ready-server cache and update workers
(implementation not in the snapshot; modelled from the spec, section 4.5,
and validated against the tests in part_004) -/

/-- The cache key of a game server: namespace/name. -/
def cacheKey (gs : GameServer) : String :=
  gs.ns ++ "/" ++ gs.name

/-- The ready-server cache: an association of keys to game servers. -/
abbrev ReadyCache := List (String × GameServer)

/-- Remove a key from the cache. -/
def cacheDelete (c : ReadyCache) (k : String) : ReadyCache :=
  c.filter fun p => !(p.1 == k)

/-- Store a key in the cache, replacing any previous entry for it. -/
def cacheStore (c : ReadyCache) (k : String) (gs : GameServer) : ReadyCache :=
  (k, gs) :: cacheDelete c k

/-- Look a key up in the cache. -/
def cacheLookup : ReadyCache → String → Option GameServer
  | [], _ => none
  | (k2, gs) :: rest, k => if k2 == k then some gs else cacheLookup rest k

theorem cacheLookup_cacheDelete : ∀ (c : ReadyCache) (k q : String),
    cacheLookup (cacheDelete c k) q = if q = k then none else cacheLookup c q := by
  intro c k q
  induction c with
  | nil => simp [cacheDelete, cacheLookup]
  | cons p rest ih =>
    simp only [cacheDelete, List.filter_cons] at ih ⊢
    by_cases h1 : p.1 = k <;> by_cases h2 : q = k
    · simp_all [cacheLookup, beq_iff_eq]
    · have h3 : ¬ (k = q) := fun hh => h2 hh.symm
      simp_all [cacheLookup, beq_iff_eq]
    · simp_all [cacheLookup, beq_iff_eq]
    · have h3 : ¬ (k = q) := fun hh => h2 hh.symm
      simp_all [cacheLookup, beq_iff_eq]

theorem cacheLookup_cacheStore (c : ReadyCache) (k : String) (gs : GameServer)
    (q : String) :
    cacheLookup (cacheStore c k gs) q = if q = k then some gs else cacheLookup c q := by
  simp only [cacheStore, cacheLookup]
  by_cases h : q = k
  · simp [h]
  · have hb : (k == q) = false := beq_eq_false_iff_ne.mpr fun hh => h hh.symm
    simp [hb, h, cacheLookup_cacheDelete]

/-- A GameServer watch event, as delivered to the allocation controller. -/
inductive GameServerEvent where
  | added (gs : GameServer)
  | modified (gs : GameServer)
  | deleted (gs : GameServer)
deriving DecidableEq, Repr

/-- The game server an event concerns. -/
def eventGameServer : GameServerEvent → GameServer
  | GameServerEvent.added gs => gs
  | GameServerEvent.modified gs => gs
  | GameServerEvent.deleted gs => gs

/-- Whether a game server belongs in the ready cache: state Ready and no
deletion timestamp. -/
def isCacheReady (gs : GameServer) : Bool :=
  gs.state == GameServerState.ready && gs.deletionTimestamp == none

/-- Modelled from the spec: the ready-server cache (implementation not under
src/) is populated by watching GameServer events and retains only servers in
state Ready with no deletion timestamp; any other observed state, a set
deletion timestamp, or a delete event removes the server. -/
def processCacheEvent (c : ReadyCache) (e : GameServerEvent) : ReadyCache :=
  match e with
  | GameServerEvent.added gs =>
      if isCacheReady gs then cacheStore c (cacheKey gs) gs
      else cacheDelete c (cacheKey gs)
  | GameServerEvent.modified gs =>
      if isCacheReady gs then cacheStore c (cacheKey gs) gs
      else cacheDelete c (cacheKey gs)
  | GameServerEvent.deleted gs => cacheDelete c (cacheKey gs)

/-- The cache contents after a sequence of watch events, starting empty. -/
def readyCacheAfter (events : List GameServerEvent) : ReadyCache :=
  events.foldl processCacheEvent []

/-- The most recent event concerning a given key. -/
def lastEventFor (events : List GameServerEvent) (k : String) :
    Option GameServerEvent :=
  events.reverse.find? fun e => cacheKey (eventGameServer e) == k

/-- What the cache should hold for a key, judged from the most recent event
for that key alone: the server if that event reported it Ready and not being
deleted, nothing otherwise. -/
def expectedCacheEntry : Option GameServerEvent → Option GameServer
  | some (GameServerEvent.added gs) => if isCacheReady gs then some gs else none
  | some (GameServerEvent.modified gs) => if isCacheReady gs then some gs else none
  | _ => none

/-- Claim C6: after processing any sequence of GameServer watch events, the
ready-server cache contains exactly those game servers whose most recently
observed state is Ready with no deletion timestamp: for every key, the cache
entry is determined by the last event for that key, holding the server
exactly when it was Ready and not being deleted. -/
theorem c6_ready_cache_retains_exactly_ready (events : List GameServerEvent)
    (k : String) :
    cacheLookup (readyCacheAfter events) k =
      expectedCacheEntry (lastEventFor events k) := by
  induction events using List.reverseRecOn with
  | nil => rfl
  | append_singleton l e ih =>
    have hstep : readyCacheAfter (l ++ [e]) = processCacheEvent (readyCacheAfter l) e := by
      simp [readyCacheAfter]
    have hlast : lastEventFor (l ++ [e]) k =
        if cacheKey (eventGameServer e) == k then some e else lastEventFor l k := by
      rw [lastEventFor, List.reverse_append]
      simp only [List.reverse_cons, List.reverse_nil, List.nil_append,
        List.singleton_append, List.find?_cons]
      cases hk : cacheKey (eventGameServer e) == k <;> simp [hk, lastEventFor]
    rw [hstep, hlast]
    cases hk : cacheKey (eventGameServer e) == k with
    | true =>
      have hk2 : cacheKey (eventGameServer e) = k := by simpa using hk
      subst hk2
      cases e with
      | added gs =>
        cases hr : isCacheReady gs <;>
          simp [processCacheEvent, hr, expectedCacheEntry, eventGameServer,
            cacheLookup_cacheStore, cacheLookup_cacheDelete]
      | modified gs =>
        cases hr : isCacheReady gs <;>
          simp [processCacheEvent, hr, expectedCacheEntry, eventGameServer,
            cacheLookup_cacheStore, cacheLookup_cacheDelete]
      | deleted gs =>
        simp [processCacheEvent, expectedCacheEntry, eventGameServer,
          cacheLookup_cacheDelete]
    | false =>
      have hne : k ≠ cacheKey (eventGameServer e) :=
        fun hh => (beq_eq_false_iff_ne.mp hk) hh.symm
      cases e with
      | added gs =>
        cases hr : isCacheReady gs <;>
          simp_all [processCacheEvent, hr, eventGameServer,
            cacheLookup_cacheStore, cacheLookup_cacheDelete]
      | modified gs =>
        cases hr : isCacheReady gs <;>
          simp_all [processCacheEvent, hr, eventGameServer,
            cacheLookup_cacheStore, cacheLookup_cacheDelete]
      | deleted gs =>
        simp_all [processCacheEvent, eventGameServer, cacheLookup_cacheDelete]

/-- The reply an allocation update worker sends on the per-request response
channel. -/
structure WorkerReply where
  gs : GameServer
  err : Option String
deriving DecidableEq, Repr

/-- Modelled from the spec: an allocation update worker (implementation not
under src/) performs the store update setting the chosen game server to
Allocated; on success it replies with the updated server and no error; on
failure it restores the server into the ready cache and replies with the
failure. -/
def allocationUpdateWorkerStep (store : GameServer → Except String GameServer)
    (c : ReadyCache) (gs : GameServer) : ReadyCache × WorkerReply :=
  match store { gs with state := GameServerState.allocated } with
  | Except.ok updated => (c, { gs := updated, err := none })
  | Except.error e => (cacheStore c (cacheKey gs) gs, { gs := gs, err := some e })

/-- Claim C5: for every allocation update, a success reply is sent only when
the store update setting the server to Allocated was acknowledged (and then
the cache is untouched), and on a store failure the worker restores the
server into the ready-server cache and replies with the failure. -/
theorem c5_update_worker_success_iff_store_ack
    (store : GameServer → Except String GameServer) (c : ReadyCache)
    (gs : GameServer) :
    ((allocationUpdateWorkerStep store c gs).2.err = none ↔
      ∃ u, store { gs with state := GameServerState.allocated } = Except.ok u ∧
        (allocationUpdateWorkerStep store c gs).2.gs = u) ∧
    (∀ e, (allocationUpdateWorkerStep store c gs).2.err = some e →
      cacheLookup (allocationUpdateWorkerStep store c gs).1 (cacheKey gs) = some gs ∧
        store { gs with state := GameServerState.allocated } = Except.error e) ∧
    ((allocationUpdateWorkerStep store c gs).2.err = none →
      (allocationUpdateWorkerStep store c gs).1 = c) := by
  cases h : store { gs with state := GameServerState.allocated } <;>
    simp [allocationUpdateWorkerStep, h, cacheLookup_cacheStore]

/-- A store that always reports a conflict. -/
def conflictStore : GameServer → Except String GameServer :=
  fun _ => Except.error "conflict"

/-- A store that always acknowledges the update. -/
def ackStore : GameServer → Except String GameServer :=
  fun gs => Except.ok gs

/-- Witness for C5: a conflicting store leaves the server back in the cache,
and an acknowledging store leaves the cache untouched. -/
theorem c5_update_worker_success_iff_store_ack_witness :
    cacheLookup (allocationUpdateWorkerStep conflictStore [] readyGs).1
        (cacheKey readyGs) = some readyGs ∧
      (allocationUpdateWorkerStep ackStore [] readyGs).1 = [] :=
  ⟨((c5_update_worker_success_iff_store_ack conflictStore [] readyGs).2.1
      "conflict" rfl).1,
    (c5_update_worker_success_iff_store_ack ackStore [] readyGs).2.2 rfl⟩

/-! ## Packed sort order of the ready slice (implementation not in the
snapshot; the spec's sort key is checked against the fixtures of
TestControllerListSortedReadyGameServers in part_004) -/

/-- The number of Allocated game servers on a node, as maintained by the
per-node counter. -/
def nodeAllocatedCount (all : List GameServer) (node : String) : Nat :=
  (all.filter fun gs =>
    gs.nodeName == node && gs.state == GameServerState.allocated).length

/-- The number of Ready game servers on a node, as maintained by the
per-node counter. -/
def nodeReadyCount (all : List GameServer) (node : String) : Nat :=
  (all.filter fun gs =>
    gs.nodeName == node && gs.state == GameServerState.ready).length

/-- Ordering on characters by code point. -/
def charLt (a b : Char) : Bool :=
  decide (a.toNat < b.toNat)

/-- Lexicographic ordering on character lists. -/
def charListLt : List Char → List Char → Bool
  | [], [] => false
  | [], _ :: _ => true
  | _ :: _, [] => false
  | a :: as, b :: bs =>
    if charLt a b then true
    else if charLt b a then false
    else charListLt as bs

/-- Lexicographic ordering on strings, over their character lists. -/
def strLt (a b : String) : Bool :=
  charListLt a.data b.data

/-- Modelled from the spec: the claimed sort key for the ready slice under
Packed scheduling — descending count of already-Allocated servers on the
same node, then lexicographic node name, then GameServer name. -/
def specSortLess (all : List GameServer) (a b : GameServer) : Bool :=
  if nodeAllocatedCount all a.nodeName != nodeAllocatedCount all b.nodeName then
    decide (nodeAllocatedCount all b.nodeName < nodeAllocatedCount all a.nodeName)
  else if a.nodeName != b.nodeName then strLt a.nodeName b.nodeName
  else strLt a.name b.name

/-- The ready slice sorted with the sort key claimed by the spec. -/
def specSortedReadyGameServers (all : List GameServer) : List GameServer :=
  sortByLess (specSortLess all) (all.filter isCacheReady)

/-- Modelled from the repository tests
(TestControllerListSortedReadyGameServers): the comparison the fixtures
require — descending per-node Allocated count, then descending per-node
Ready count, then GameServer name. -/
def listSortedLess (all : List GameServer) (a b : GameServer) : Bool :=
  if nodeAllocatedCount all a.nodeName != nodeAllocatedCount all b.nodeName then
    decide (nodeAllocatedCount all b.nodeName < nodeAllocatedCount all a.nodeName)
  else if nodeReadyCount all a.nodeName != nodeReadyCount all b.nodeName then
    decide (nodeReadyCount all b.nodeName < nodeReadyCount all a.nodeName)
  else strLt a.name b.name

/-- The ready slice sorted with the comparison the repository tests
require. -/
def listSortedReadyGameServers (all : List GameServer) : List GameServer :=
  sortByLess (listSortedLess all) (all.filter isCacheReady)

/-- Fixture gs1 of TestControllerListSortedReadyGameServers: node1, Ready. -/
def c7gs1 : GameServer :=
  { name := "gs1", ns := "default", labels := [], nodeName := "node1"
    state := GameServerState.ready, creationTimestamp := 0, deletionTimestamp := none }

/-- Fixture gs2 of TestControllerListSortedReadyGameServers: node2, Ready. -/
def c7gs2 : GameServer :=
  { name := "gs2", ns := "default", labels := [], nodeName := "node2"
    state := GameServerState.ready, creationTimestamp := 0, deletionTimestamp := none }

/-- Fixture gs3 of TestControllerListSortedReadyGameServers: node1,
Allocated. -/
def c7gs3 : GameServer :=
  { name := "gs3", ns := "default", labels := [], nodeName := "node1"
    state := GameServerState.allocated, creationTimestamp := 0, deletionTimestamp := none }

/-- Fixture gs4 of TestControllerListSortedReadyGameServers: node2, Ready. -/
def c7gs4 : GameServer :=
  { name := "gs4", ns := "default", labels := [], nodeName := "node2"
    state := GameServerState.ready, creationTimestamp := 0, deletionTimestamp := none }

/-- The assertions of the "most allocated" fixture: the sorted slice is
exactly gs1 then gs2. -/
def mostAllocatedExpectation (l : List GameServer) : Bool :=
  decide (l = [c7gs1, c7gs2])

/-- The assertions of the "list ready" fixture: three entries, the first two
named gs2 or gs4, and gs1 last. -/
def listReadyExpectation (l : List GameServer) : Bool :=
  decide (l.length = 3) &&
    (decide ((l.get? 0).map GameServer.name = some "gs2") ||
      decide ((l.get? 0).map GameServer.name = some "gs4")) &&
    (decide ((l.get? 1).map GameServer.name = some "gs2") ||
      decide ((l.get? 1).map GameServer.name = some "gs4")) &&
    decide (l.get? 2 = some c7gs1)

/-- The assertions of the "lexicographical (node name)" fixture: the sorted
slice is exactly gs1 then gs2. -/
def lexicographicalExpectation (l : List GameServer) : Bool :=
  decide (l = [c7gs1, c7gs2])

/-- Claim C7, counterexample: on the "list ready" fixture of
TestControllerListSortedReadyGameServers (node1 holds one Ready server,
node2 holds two, nobody is Allocated), the spec's claimed sort key — which
falls back to lexicographic node name — puts gs1 (node1) first, whereas the
repository test requires gs1 last; so the ready slice is not ordered by the
claimed key. -/
theorem c7_spec_sort_key_refuted_by_fixture :
    specSortedReadyGameServers [c7gs1, c7gs2, c7gs4] = [c7gs1, c7gs2, c7gs4] ∧
    listReadyExpectation (specSortedReadyGameServers [c7gs1, c7gs2, c7gs4]) = false := by
  refine ⟨?_, ?_⟩ <;> decide

/-- Claim C7 as amended: the ready slice for Packed allocation is ordered by
descending per-node Allocated count, then descending per-node Ready count,
then GameServer name; this comparison reproduces the expected output of all
three fixtures of TestControllerListSortedReadyGameServers (and still
drains the node with the most Allocated servers first). -/
theorem c7_sorted_by_allocated_then_ready_then_name :
    mostAllocatedExpectation (listSortedReadyGameServers [c7gs1, c7gs2, c7gs3]) = true ∧
    listReadyExpectation (listSortedReadyGameServers [c7gs1, c7gs2, c7gs4]) = true ∧
    lexicographicalExpectation (listSortedReadyGameServers [c7gs2, c7gs1]) = true := by
  refine ⟨?_, ?_, ?_⟩ <;> decide

/-! ## Allocation HTTP handler (implementation not in the snapshot;
modelled from the spec, section 6, and TestControllerAllocationHandler) -/

/-- The logical outcome of processing an allocation request. -/
inductive AllocationOutcome where
  | allocatedTo (gs : GameServer)
  | unAllocated
deriving DecidableEq, Repr

/-- An HTTP response: status code, and the allocation status on logical
results. -/
structure HttpResponse where
  code : Nat
  status : Option AllocationOutcome
deriving DecidableEq, Repr

/-- Whether the parsed body is a valid GameServerAllocation: its scheduling
strategy must be one of Packed and Distributed. -/
def gsaSchedulingValid (gsa : GameServerAllocation) : Bool :=
  match gsa.scheduling with
  | SchedulingStrategy.packed => true
  | SchedulingStrategy.distributed => true
  | SchedulingStrategy.unsupported _ => false

/-- Modelled from the spec: the allocation HTTP handler (implementation not
under src/) answers 405 to any non-POST method, 422 to a POST whose body
does not parse or fails validation (for example an unsupported scheduling
strategy), and 200 with the allocation status populated for every logically
processed request, including UnAllocated results. -/
def allocationHandler (method : String) (body : Option GameServerAllocation)
    (allocate : GameServerAllocation → AllocationOutcome) : HttpResponse :=
  if method != "POST" then { code := 405, status := none }
  else
    match body with
    | none => { code := 422, status := none }
    | some gsa =>
        if gsaSchedulingValid gsa then { code := 200, status := some (allocate gsa) }
        else { code := 422, status := none }

/-- Claim C8: the allocation HTTP handler returns 405 for every non-POST
request, 422 for every POST whose body is missing or invalid (for example an
unsupported scheduling strategy), and 200 with the allocation status
populated for every logically processed request, including UnAllocated. -/
theorem c8_allocation_handler_codes (method : String)
    (body : Option GameServerAllocation)
    (allocate : GameServerAllocation → AllocationOutcome) :
    (method ≠ "POST" →
      allocationHandler method body allocate = { code := 405, status := none }) ∧
    (body = none →
      allocationHandler "POST" body allocate = { code := 422, status := none }) ∧
    (∀ gsa, body = some gsa → gsaSchedulingValid gsa = false →
      allocationHandler "POST" body allocate = { code := 422, status := none }) ∧
    (∀ gsa, body = some gsa → gsaSchedulingValid gsa = true →
      allocationHandler "POST" body allocate =
        { code := 200, status := some (allocate gsa) }) := by
  refine ⟨?_, ?_, ?_, ?_⟩
  · intro h
    have hb : (method != "POST") = true := bne_iff_ne.mpr h
    simp [allocationHandler, hb]
  · intro h
    subst h
    simp [allocationHandler]
  · intro gsa h hv
    subst h
    simp [allocationHandler, hv]
  · intro gsa h hv
    subst h
    simp [allocationHandler, hv]

/-- A GameServerAllocation carrying an unsupported scheduling strategy, as
posted by the invalid-body subtest. -/
def invalidSchedulingGsa : GameServerAllocation :=
  { ns := "default"
    required := { matchLabels := [] }
    preferred := []
    scheduling := SchedulingStrategy.unsupported "wrong" }

/-- Witness for C8 at concrete requests: GET, empty body, unsupported
scheduling, and a valid Packed request. -/
theorem c8_allocation_handler_codes_witness :
    allocationHandler "GET" none (fun _ => AllocationOutcome.unAllocated) =
        { code := 405, status := none } ∧
      allocationHandler "POST" none (fun _ => AllocationOutcome.unAllocated) =
        { code := 422, status := none } ∧
      allocationHandler "POST" (some invalidSchedulingGsa)
          (fun _ => AllocationOutcome.unAllocated) = { code := 422, status := none } ∧
      allocationHandler "POST" (some bluePreferredAllocation)
          (fun _ => AllocationOutcome.unAllocated) =
        { code := 200, status := some AllocationOutcome.unAllocated } :=
  ⟨(c8_allocation_handler_codes "GET" none
      (fun _ => AllocationOutcome.unAllocated)).1 (by decide),
    (c8_allocation_handler_codes "POST" none
      (fun _ => AllocationOutcome.unAllocated)).2.1 rfl,
    (c8_allocation_handler_codes "POST" (some invalidSchedulingGsa)
      (fun _ => AllocationOutcome.unAllocated)).2.2.1 invalidSchedulingGsa rfl rfl,
    (c8_allocation_handler_codes "POST" (some bluePreferredAllocation)
      (fun _ => AllocationOutcome.unAllocated)).2.2.2 bluePreferredAllocation rfl rfl⟩

end Agones
